import Mathlib

/-!
Verification of the pyueransim protocol engine.

This file is a shallow embedding of the Python sources of the pyueransim
repository (`pyueransim/core/__init__.py`, `pyueransim/core/nas.py`,
`pyueransim/core/rrc.py`, `pyueransim/simulation/__init__.py`) into Lean 4,
together with theorems settling the specification claims about it.

Modelling conventions:
* Python `bytes` values are `List Nat`, every element intended `< 256`.
  The range check performed by the Python `bytes([...])` constructor is
  modelled by `pyBytes`, which fails (like the Python `ValueError`) when an
  element is out of range.  Constructions whose elements are literals or are
  masked with `&&&` below 256 in the source are modelled as plain lists,
  since the check provably passes there.
* Python exceptions are modelled with `Except String`; the string carries
  the exception described by the source behaviour.
* Python `Enum` members are modelled by their numeric `value`; a Python
  enum lookup `EnumCls(v)` is modelled as a membership test in the list of
  declared values (aliases collapse to one member in Python exactly as two
  equal numeric values are one `Nat` here).
* Mutation of `self` is modelled by state passing: a method that mutates
  its object returns the updated record.  Callback invocations
  (`on_rrc_message` / `on_nas_message`) are modelled as a returned list of
  emitted byte strings.  Wall-clock readings (`datetime.now()`) are passed
  in explicitly.
-/

/-- Decidable equality for `Except`, so concrete runs can be checked with
`decide`. -/
instance instDecEqExcept {ε α : Type} [DecidableEq ε] [DecidableEq α] :
    DecidableEq (Except ε α) := fun a b =>
  match a, b with
  | .ok x, .ok y =>
    if h : x = y then .isTrue (by rw [h]) else .isFalse (by intro hc; cases hc; exact h rfl)
  | .error x, .error y =>
    if h : x = y then .isTrue (by rw [h]) else .isFalse (by intro hc; cases hc; exact h rfl)
  | .ok _, .error _ => .isFalse (by intro hc; cases hc)
  | .error _, .ok _ => .isFalse (by intro hc; cases hc)

/-- The Python `bytes([...])` constructor: succeeds with the byte list when
every element is in `range(0, 256)`, otherwise raises `ValueError`. -/
def pyBytes (l : List Nat) : Except String (List Nat) :=
  if l.all (fun b => b < 256) then .ok l
  else .error "ValueError: bytes must be in range(0, 256)"

theorem pyBytes_ok {l : List Nat} (h : ∀ x ∈ l, x < 256) : pyBytes l = .ok l := by
  unfold pyBytes
  rw [if_pos]
  exact List.all_eq_true.mpr fun x hx => decide_eq_true (h x hx)

/-- Big-endian value of a byte string (`int.from_bytes(-, 'big')`). -/
def bytesToNatBE (l : List Nat) : Nat := l.foldl (fun a b => a * 256 + b) 0

/-! ## NAS message layer (`pyueransim/core/nas.py`) -/

/-- The declared values of `ENasMessageType` (nas.py lines 18-63). -/
def nasMessageTypeValues : List Nat :=
  [0x41, 0x42, 0x43, 0x44, 0x45, 0x46, 0x47, 0x48, 0x49, 0x4c,
   0x56, 0x57, 0x58, 0x59, 0x5b, 0x5d, 0x5e, 0x5f, 0x67, 0x68,
   0xa1, 0xa2, 0xa3, 0xa9, 0xaa, 0xab, 0xa5, 0xa6, 0xa8]

/-- Whether `ENasMessageType(b)` succeeds. -/
def isNasMessageType (b : Nat) : Bool := decide (b ∈ nasMessageTypeValues)

/-- `NasMessage` dataclass (nas.py lines 164-170). -/
structure NasMessage where
  security_header : Nat := 0
  message_type : Nat := 0x41
  plain_message : List Nat := []
  encrypted_message : List Nat := []
deriving DecidableEq

/-- `NasMessage.encode` (nas.py lines 172-179): header byte, type byte, then
the plain message when the security header is 0, else the encrypted one. -/
def NasMessage.encode (m : NasMessage) : Except String (List Nat) := do
  let hdr ← pyBytes [m.security_header, m.message_type]
  .ok (hdr ++ (if m.security_header = 0 then m.plain_message else m.encrypted_message))

/-- `NasMessage.decode` (nas.py lines 181-192).  With at least two bytes the
header and type are read (`ENasMessageType(data[1])` raises `ValueError` on
an undeclared value); shorter input falls through to the defaults. -/
def NasMessage.decode (data : List Nat) : Except String NasMessage :=
  match data with
  | d0 :: d1 :: rest =>
    if isNasMessageType d1 then
      if d0 = 0 then .ok ⟨d0, d1, rest, []⟩
      else .ok ⟨d0, d1, [], rest⟩
    else .error "ValueError: not a valid ENasMessageType"
  | _ => .ok ⟨0, 0x41, [], []⟩

/-! ## RRC message layer (`pyueransim/core/rrc.py`) -/

/-- The declared values of `ERrcMessageType` (rrc.py lines 15-45).  The
source declares aliases (`RRC_MIB = 0x01`, `RRC_SIB1 = 0x05`,
`RRC_CONN_RELEASE = 0x0c`) which Python folds into the earlier member with
the same value, so each value appears once. -/
def rrcMessageTypeValues : List Nat :=
  [0x01, 0x08, 0x09, 0x0b, 0x0c, 0x0d, 0x0e, 0x10, 0x13, 0x17, 0x1b, 0x1c, 0x1f,
   0x02, 0x03, 0x05, 0x06, 0x07, 0x0a, 0x0f, 0x12, 0x14, 0x16]

/-- Whether `ERrcMessageType(b)` succeeds. -/
def isRrcMessageType (b : Nat) : Bool := decide (b ∈ rrcMessageTypeValues)

/-- `RrcMessage` dataclass (rrc.py lines 73-78). -/
structure RrcMessage where
  rrc_transaction_id : Nat := 0
  message_type : Nat := 0x01
  payload : List Nat := []
deriving DecidableEq

/-- `RrcMessage.encode` (rrc.py lines 80-88):
`(transaction_id << 2) | 0x01`, the type byte, then the payload. -/
def RrcMessage.encode (m : RrcMessage) : Except String (List Nat) := do
  let hdr ← pyBytes [(m.rrc_transaction_id <<< 2) ||| 0x01, m.message_type]
  .ok (hdr ++ m.payload)

/-- `RrcMessage.decode` (rrc.py lines 90-100): inputs shorter than two bytes
yield the default record; otherwise the 2-bit transaction id is recovered
with `(data[0] >> 2) & 0x03` and `ERrcMessageType(data[1])` raises
`ValueError` on an undeclared value. -/
def RrcMessage.decode (data : List Nat) : Except String RrcMessage :=
  match data with
  | d0 :: d1 :: rest =>
    if isRrcMessageType d1 then .ok ⟨(d0 >>> 2) &&& 0x03, d1, rest⟩
    else .error "ValueError: not a valid ERrcMessageType"
  | _ => .ok ⟨0, 0x01, []⟩

theorem except_ok_bind {ε α β : Type} (a : α) (f : α → Except ε β) :
    (Except.ok (ε := ε) a >>= f) = f a := rfl

theorem nasMessageType_lt_256 {b : Nat} (h : isNasMessageType b = true) : b < 256 := by
  have hall : ∀ x ∈ nasMessageTypeValues, x < 256 := by decide
  exact hall b (of_decide_eq_true h)

theorem rrcMessageType_lt_256 {b : Nat} (h : isRrcMessageType b = true) : b < 256 := by
  have hall : ∀ x ∈ rrcMessageTypeValues, x < 256 := by decide
  exact hall b (of_decide_eq_true h)

/-- C1: For every NAS message record with security header 0, a supported
message type and no encrypted part populated, and for every RRC message
record with a transaction id in 0..3 and a supported message type, decoding
the encoded bytes gives back exactly the original record. -/
theorem nas_rrc_decode_encode_roundtrip :
    (∀ m : NasMessage, m.security_header = 0 → isNasMessageType m.message_type = true →
      m.encrypted_message = [] → (m.encode >>= NasMessage.decode) = .ok m)
    ∧ (∀ r : RrcMessage, r.rrc_transaction_id ≤ 3 → isRrcMessageType r.message_type = true →
      (r.encode >>= RrcMessage.decode) = .ok r) := by
  constructor
  · rintro ⟨sh, ty, pm, em⟩ h0 hty he
    dsimp only at h0 hty he
    subst h0 he
    have hlt := nasMessageType_lt_256 hty
    have henc : pyBytes [0, ty] = .ok [0, ty] := by
      apply pyBytes_ok
      intro x hx
      simp only [List.mem_cons, List.not_mem_nil, or_false] at hx
      rcases hx with rfl | rfl
      · norm_num
      · exact hlt
    simp [NasMessage.encode, henc, except_ok_bind, NasMessage.decode, hty]
  · rintro ⟨tid, ty, pl⟩ h3 hty
    dsimp only at h3 hty
    have hlt := rrcMessageType_lt_256 hty
    interval_cases tid <;>
      simp [RrcMessage.encode, pyBytes, except_ok_bind, RrcMessage.decode, hty, hlt] <;>
      decide

/-- Witness for C1 at concrete records. -/
theorem nas_rrc_decode_encode_roundtrip_witness :
    ((NasMessage.mk 0 0x41 [1, 2, 3] []).encode >>= NasMessage.decode)
        = .ok (NasMessage.mk 0 0x41 [1, 2, 3] [])
    ∧ ((RrcMessage.mk 2 0x0c [7, 8]).encode >>= RrcMessage.decode)
        = .ok (RrcMessage.mk 2 0x0c [7, 8]) :=
  ⟨nas_rrc_decode_encode_roundtrip.1 _ (by decide) (by decide) (by decide),
   nas_rrc_decode_encode_roundtrip.2 _ (by decide) (by decide)⟩

/-! ## UE-side RRC state machine (`pyueransim/core/rrc.py` lines 364-399) -/

/-- `RrcStateMachine` for the UE: a free-form string state (the source uses
the strings "idle", "connecting", "connected") plus two observation flags. -/
structure RrcStateMachine where
  state : String := "idle"
  setup_complete_received : Bool := false
  reconfiguration_complete_received : Bool := false
deriving DecidableEq

/-- `RrcStateMachine.handle_message` (rrc.py lines 372-395).  The source is
an `async` method whose only effects are the `self.state` assignment and the
returned response; it is modelled as a pure step function. -/
def RrcStateMachine.handleMessage (sm : RrcStateMachine) (msg : RrcMessage) :
    RrcStateMachine × Option RrcMessage :=
  if sm.state = "idle" then
    if msg.message_type = 0x02 then
      ({sm with state := "connecting"}, some ⟨msg.rrc_transaction_id, 0x09, []⟩)
    else (sm, none)
  else if sm.state = "connecting" then
    if msg.message_type = 0x03 then
      ({sm with state := "connected"}, some ⟨msg.rrc_transaction_id, 0x1b, []⟩)
    else (sm, none)
  else if sm.state = "connected" then
    if msg.message_type = 0x06 then ({sm with state := "idle"}, none)
    else (sm, none)
  else (sm, none)

/-- C2: in state idle a SETUP (0x02) yields a SETUP_COMPLETE (0x09) response
and moves to connecting; in connecting a RECONFIGURATION (0x03) yields the
reconfiguration-complete response (`RRC_CONN_RECONFIGURATION_COMPLETE`,
0x1b) and moves to connected; in connected a RELEASE (0x06) moves to idle
with no response; every other (state, message) pair leaves the machine
unchanged and produces no outbound message. -/
theorem rrc_state_machine_transitions :
    (∀ (sm : RrcStateMachine) (msg : RrcMessage),
      sm.state = "idle" → msg.message_type = 0x02 →
      sm.handleMessage msg = ({sm with state := "connecting"},
        some ⟨msg.rrc_transaction_id, 0x09, []⟩))
    ∧ (∀ (sm : RrcStateMachine) (msg : RrcMessage),
      sm.state = "connecting" → msg.message_type = 0x03 →
      sm.handleMessage msg = ({sm with state := "connected"},
        some ⟨msg.rrc_transaction_id, 0x1b, []⟩))
    ∧ (∀ (sm : RrcStateMachine) (msg : RrcMessage),
      sm.state = "connected" → msg.message_type = 0x06 →
      sm.handleMessage msg = ({sm with state := "idle"}, none))
    ∧ (∀ (sm : RrcStateMachine) (msg : RrcMessage),
      (sm.state = "idle" → msg.message_type ≠ 0x02) →
      (sm.state = "connecting" → msg.message_type ≠ 0x03) →
      (sm.state = "connected" → msg.message_type ≠ 0x06) →
      sm.handleMessage msg = (sm, none)) := by
  refine ⟨?_, ?_, ?_, ?_⟩
  · intro sm msg h1 h2
    simp [RrcStateMachine.handleMessage, h1, h2]
  · intro sm msg h1 h2
    simp [RrcStateMachine.handleMessage, h1, h2]
  · intro sm msg h1 h2
    simp [RrcStateMachine.handleMessage, h1, h2]
  · intro sm msg h1 h2 h3
    unfold RrcStateMachine.handleMessage
    by_cases hs1 : sm.state = "idle"
    · simp [hs1, h1 hs1]
    · by_cases hs2 : sm.state = "connecting"
      · simp [hs1, hs2, h2 hs2]
      · by_cases hs3 : sm.state = "connected"
        · simp [hs1, hs2, hs3, h3 hs3]
        · simp [hs1, hs2, hs3]

/-- Witness for C2: the documented sequence at concrete messages, and a
no-op pair. -/
theorem rrc_state_machine_transitions_witness :
    ({state := "idle" : RrcStateMachine}.handleMessage ⟨1, 0x02, []⟩
        = ({state := "connecting"}, some ⟨1, 0x09, []⟩))
    ∧ ({state := "connecting" : RrcStateMachine}.handleMessage ⟨2, 0x03, []⟩
        = ({state := "connected"}, some ⟨2, 0x1b, []⟩))
    ∧ ({state := "connected" : RrcStateMachine}.handleMessage ⟨0, 0x06, []⟩
        = ({state := "idle"}, none))
    ∧ ({state := "idle" : RrcStateMachine}.handleMessage ⟨0, 0x06, []⟩
        = ({state := "idle"}, none)) :=
  ⟨rrc_state_machine_transitions.1 _ _ rfl rfl,
   rrc_state_machine_transitions.2.1 _ _ rfl rfl,
   rrc_state_machine_transitions.2.2.1 _ _ rfl rfl,
   rrc_state_machine_transitions.2.2.2 _ _ (by decide) (by decide) (by decide)⟩

/-! ## MIB (`pyueransim/core/rrc.py` lines 319-360) -/

/-- `MIB` dataclass (rrc.py lines 319-328). -/
structure MIB where
  system_frame_number : Nat := 0
  subcarrier_spacing_common : Nat := 0
  ssb_subcarrier_offset : Nat := 0
  dmrs_type_a_position : Nat := 0
  pdcch_config_sib1 : Nat := 0
  cell_barred : Bool := false
  intra_freq_reselection : Bool := true
deriving DecidableEq

/-- `MIB.encode` (rrc.py lines 330-360): the fields are or-ed into one word
at bit positions 0, 10, 11, 15, 16, 24, 25 and 26, the word is rendered as
4 big-endian bytes (it is provably below `2^32`, so `to_bytes(4, 'big')`
cannot overflow) and the first 3 bytes are kept. -/
def MIB.encode (m : MIB) : List Nat :=
  let mib_data :=
    (m.system_frame_number &&& 0x3ff)
    ||| ((m.subcarrier_spacing_common &&& 0x01) <<< 10)
    ||| ((m.ssb_subcarrier_offset &&& 0x0f) <<< 11)
    ||| ((m.dmrs_type_a_position &&& 0x01) <<< 15)
    ||| ((m.pdcch_config_sib1 &&& 0xff) <<< 16)
    ||| ((if m.cell_barred then 0 else 1) <<< 24)
    ||| ((if m.intra_freq_reselection then 0 else 1) <<< 25)
    ||| (0x3f <<< 26)
  [(mib_data >>> 24) &&& 0xff, (mib_data >>> 16) &&& 0xff, (mib_data >>> 8) &&& 0xff]

/-- C8 counterexample: two MIB records that differ only in the
system-frame-number (0 versus 1, already distinct modulo `2^10`) encode to
the same 3 bytes, so the 10-bit system-frame-number is not recoverable from
the output. -/
theorem mib_encode_counterexample :
    MIB.encode {system_frame_number := 0} = MIB.encode {system_frame_number := 1}
    ∧ (0 : Nat) % 2 ^ 10 ≠ 1 % 2 ^ 10 := by
  constructor
  · decide
  · decide

theorem lor_two_pow_mul_eq_add {x y k : Nat} (hx : x < 2 ^ k) :
    x ||| (y * 2 ^ k) = x + y * 2 ^ k := by
  apply Nat.eq_of_testBit_eq
  intro j
  have hadd : (x + y * 2 ^ k).testBit j =
      if j < k then x.testBit j else y.testBit (j - k) := by
    rw [Nat.add_comm, Nat.mul_comm]
    exact Nat.testBit_mul_pow_two_add y hx j
  have hmul : (y * 2 ^ k).testBit j = (decide (j ≥ k) && y.testBit (j - k)) := by
    rw [Nat.mul_comm]
    exact Nat.testBit_mul_pow_two
  rw [Nat.testBit_or, hadd, hmul]
  rcases Nat.lt_or_ge j k with h | h
  · simp [h, Nat.not_le.mpr h]
  · have hxj : x.testBit j = false :=
      Nat.testBit_lt_two_pow
        (Nat.lt_of_lt_of_le hx (Nat.pow_le_pow_right (by norm_num) h))
    simp [Nat.not_lt.mpr h, hxj, h]

/-- Helper stated with an explicit modulus so `rw` can match numerals. -/
theorem lor_mul_eq_add {x y M : Nat} (hM : ∃ k, M = 2 ^ k) (hx : x < M) :
    x ||| (y * M) = x + y * M := by
  obtain ⟨k, rfl⟩ := hM
  exact lor_two_pow_mul_eq_add hx

/-- C8 amended: `MIB.encode` always outputs exactly 3 bytes, fully
determined as below: the first byte holds the 6 spare bits (always set),
the intra-frequency-reselection bit and the cell-barred bit, the second
byte the 8-bit PDCCH config, the third byte the DMRS-position bit, the
4-bit SSB offset, the subcarrier-spacing bit and only the TOP TWO bits of
the 10-bit system-frame-number: the low 8 bits of the system-frame-number
are dropped by the 3-byte truncation and are not recoverable. -/
theorem mib_encode_top_three_bytes (m : MIB) :
    MIB.encode m =
      [252 + (if m.intra_freq_reselection then 0 else 1) * 2
         + (if m.cell_barred then 0 else 1),
       m.pdcch_config_sib1 % 256,
       m.dmrs_type_a_position % 2 * 128 + m.ssb_subcarrier_offset % 16 * 8
         + m.subcarrier_spacing_common % 2 * 4
         + m.system_frame_number % 1024 / 256] := by
  obtain ⟨sfn, scs, ssb, dmrs, pdcch, barred, intra⟩ := m
  have m1 : ∀ x : Nat, x &&& 1 = x % 2 := fun x => by
    simpa using Nat.and_pow_two_sub_one_eq_mod x 1
  have m15 : ∀ x : Nat, x &&& 15 = x % 16 := fun x => by
    simpa using Nat.and_pow_two_sub_one_eq_mod x 4
  have m255 : ∀ x : Nat, x &&& 255 = x % 256 := fun x => by
    simpa using Nat.and_pow_two_sub_one_eq_mod x 8
  have m1023 : ∀ x : Nat, x &&& 1023 = x % 1024 := fun x => by
    simpa using Nat.and_pow_two_sub_one_eq_mod x 10
  dsimp only [MIB.encode]
  generalize hG : (if barred = true then (0 : Nat) else 1) = G
  generalize hH : (if intra = true then (0 : Nat) else 1) = H
  simp only [m1, m15, m255, m1023, Nat.shiftLeft_eq, Nat.shiftRight_eq_div_pow]
  norm_num
  generalize hA : sfn % 1024 = A
  generalize hB : scs % 2 = B
  generalize hC : ssb % 16 = C
  generalize hE : dmrs % 2 = E
  generalize hF : pdcch % 256 = F
  have hA' : A < 1024 := hA ▸ Nat.mod_lt _ (by norm_num)
  have hB' : B < 2 := hB ▸ Nat.mod_lt _ (by norm_num)
  have hC' : C < 16 := hC ▸ Nat.mod_lt _ (by norm_num)
  have hE' : E < 2 := hE ▸ Nat.mod_lt _ (by norm_num)
  have hF' : F < 256 := hF ▸ Nat.mod_lt _ (by norm_num)
  have hG' : G ≤ 1 := by rw [← hG]; split <;> norm_num
  have hH' : H ≤ 1 := by rw [← hH]; split <;> norm_num
  have e1 : A ||| B * 1024 = A + B * 1024 :=
    lor_mul_eq_add ⟨10, by norm_num⟩ (by omega)
  rw [e1]
  have e2 : A + B * 1024 ||| C * 2048 = A + B * 1024 + C * 2048 :=
    lor_mul_eq_add ⟨11, by norm_num⟩ (by omega)
  rw [e2]
  have e3 : A + B * 1024 + C * 2048 ||| E * 32768
      = A + B * 1024 + C * 2048 + E * 32768 :=
    lor_mul_eq_add ⟨15, by norm_num⟩ (by omega)
  rw [e3]
  have e4 : A + B * 1024 + C * 2048 + E * 32768 ||| F * 65536
      = A + B * 1024 + C * 2048 + E * 32768 + F * 65536 :=
    lor_mul_eq_add ⟨16, by norm_num⟩ (by omega)
  rw [e4]
  have e5 : A + B * 1024 + C * 2048 + E * 32768 + F * 65536 ||| G * 16777216
      = A + B * 1024 + C * 2048 + E * 32768 + F * 65536 + G * 16777216 :=
    lor_mul_eq_add ⟨24, by norm_num⟩ (by omega)
  rw [e5]
  have e6 : A + B * 1024 + C * 2048 + E * 32768 + F * 65536 + G * 16777216
        ||| H * 33554432
      = A + B * 1024 + C * 2048 + E * 32768 + F * 65536 + G * 16777216
        + H * 33554432 :=
    lor_mul_eq_add ⟨25, by norm_num⟩ (by omega)
  rw [e6]
  have e7 : A + B * 1024 + C * 2048 + E * 32768 + F * 65536 + G * 16777216
        + H * 33554432 ||| 63 * 67108864
      = A + B * 1024 + C * 2048 + E * 32768 + F * 65536 + G * 16777216
        + H * 33554432 + 63 * 67108864 :=
    lor_mul_eq_add ⟨26, by norm_num⟩ (by omega)
  rw [show (4227858432 : Nat) = 63 * 67108864 from rfl, e7]
  refine ⟨?_, ?_, ?_⟩ <;> omega

/-! ## Timer subsystem (`pyueransim/core/__init__.py` lines 184-277)

Wall-clock instants (`datetime`) are modelled as integer ticks and timer
durations (Python floats compared only with `≥`) as integers; `now` is
passed explicitly where the source calls `datetime.now()`. -/

/-- `datetime.min`, the instant `expire` rewinds a timer to. -/
def datetimeMin : Int := -62135596800

/-- `Timer` dataclass (core lines 184-216).  The opaque `data` dict is
modelled as an association list. -/
structure Timer where
  id : Nat
  timeout : Int
  started_at : Option Int := none
  data : Option (List (String × String)) := none
deriving DecidableEq

/-- `Timer.is_running`: started_at is set. -/
def Timer.is_running (t : Timer) : Bool := t.started_at.isSome

/-- `Timer.is_expired`: running and `now - started_at >= timeout`. -/
def Timer.is_expired (t : Timer) (now : Int) : Bool :=
  match t.started_at with
  | none => false
  | some s => decide (now - s ≥ t.timeout)

/-- `Timer.start`: record the current instant. -/
def Timer.start (t : Timer) (now : Int) : Timer := {t with started_at := some now}

/-- `Timer.stop`: clear the start instant. -/
def Timer.stop (t : Timer) : Timer := {t with started_at := none}

/-- First-match association list lookup; the Python dict has unique keys,
for which this is exactly `dict.get`. -/
def alistLookup {κ β : Type} [DecidableEq κ] : List (κ × β) → κ → Option β
  | [], _ => none
  | (k, v) :: rest, i => if k = i then some v else alistLookup rest i

/-- In-place value update at a key (`self.timers[timer_id].start()` etc.). -/
def alistUpdate {κ β : Type} [DecidableEq κ] (l : List (κ × β)) (i : κ) (f : β → β) :
    List (κ × β) :=
  l.map fun p => if p.1 = i then (p.1, f p.2) else p

/-- `TimerManager` dataclass (core lines 219-224): an insertion-ordered
dict of timers plus the id counter. -/
structure TimerManager where
  timers : List (Nat × Timer) := []
  next_id : Nat := 1
deriving DecidableEq

/-- `TimerManager.allocate` (core lines 226-231). -/
def TimerManager.allocate (m : TimerManager) (timeout : Int)
    (data : Option (List (String × String))) : Nat × TimerManager :=
  let timer_id := m.next_id
  (timer_id,
   {m with next_id := m.next_id + 1,
           timers := m.timers ++ [(timer_id, ⟨timer_id, timeout, none, data⟩)]})

/-- `TimerManager.start` (core lines 233-238). -/
def TimerManager.start (m : TimerManager) (now : Int) (timer_id : Nat) :
    Bool × TimerManager :=
  match alistLookup m.timers timer_id with
  | some _ => (true, {m with timers := alistUpdate m.timers timer_id (Timer.start · now)})
  | none => (false, m)

/-- `TimerManager.stop` (core lines 240-245). -/
def TimerManager.stop (m : TimerManager) (timer_id : Nat) : Bool × TimerManager :=
  match alistLookup m.timers timer_id with
  | some _ => (true, {m with timers := alistUpdate m.timers timer_id Timer.stop})
  | none => (false, m)

/-- `TimerManager.get` (core lines 247-249). -/
def TimerManager.get (m : TimerManager) (timer_id : Nat) : Option Timer :=
  alistLookup m.timers timer_id

/-- `TimerManager.expire` (core lines 251-256): force `started_at` back to
`datetime.min`. -/
def TimerManager.expire (m : TimerManager) (timer_id : Nat) : Bool × TimerManager :=
  match alistLookup m.timers timer_id with
  | some _ =>
    let f : Timer → Timer := fun t => {t with started_at := some datetimeMin}
    (true, {m with timers := alistUpdate m.timers timer_id f})
  | none => (false, m)

/-- `TimerManager.running` (core lines 258-260). -/
def TimerManager.running (m : TimerManager) : List Timer :=
  (m.timers.filter fun p => p.2.is_running).map (·.2)

/-- `TimerManager.check_expired` (core lines 262-272): collect the expired
timers in iteration order, then delete each collected id from the dict. -/
def TimerManager.check_expired (m : TimerManager) (now : Int) :
    List Timer × TimerManager :=
  let expired := (m.timers.filter fun p => p.2.is_expired now).map (·.2)
  let expired_ids := (m.timers.filter fun p => p.2.is_expired now).map (·.1)
  (expired, {m with timers := m.timers.filter fun p => decide (p.1 ∉ expired_ids)})

/-- `TimerManager.clear` (core lines 274-277). -/
def TimerManager.clear (_ : TimerManager) : TimerManager := {timers := [], next_id := 1}

theorem alistLookup_mem {κ β : Type} [DecidableEq κ] {l : List (κ × β)} {i : κ} {v : β}
    (h : alistLookup l i = some v) : (i, v) ∈ l := by
  induction l with
  | nil => simp [alistLookup] at h
  | cons p rest ih =>
    obtain ⟨k, w⟩ := p
    by_cases hk : k = i
    · subst hk
      simp [alistLookup] at h
      subst h
      exact List.mem_cons_self _ _
    · simp [alistLookup, hk] at h
      exact List.mem_cons_of_mem _ (ih h)

theorem alistLookup_eq_none {κ β : Type} [DecidableEq κ] {l : List (κ × β)} {i : κ}
    (h : ∀ p ∈ l, p.1 ≠ i) : alistLookup l i = none := by
  induction l with
  | nil => rfl
  | cons p rest ih =>
    obtain ⟨k, w⟩ := p
    have hk : k ≠ i := h (k, w) (List.mem_cons_self _ _)
    simp [alistLookup, hk]
    exact ih fun q hq => h q (List.mem_cons_of_mem _ hq)

theorem countP_expired_zero (l : List (Nat × Timer)) (now : Int) (i : Nat)
    (hids : ∀ p ∈ l, p.1 = p.2.id) (hnot : ∀ p ∈ l, p.1 ≠ i) :
    ((l.filter fun p => p.2.is_expired now).map (·.2)).countP
      (fun tm => decide (tm.id = i)) = 0 := by
  induction l with
  | nil => rfl
  | cons p rest ih =>
    obtain ⟨k, w⟩ := p
    have hk : w.id ≠ i := by
      have := hids (k, w) (List.mem_cons_self _ _)
      simp only at this
      rw [← this]
      exact hnot (k, w) (List.mem_cons_self _ _)
    have ihr := ih (fun q hq => hids q (List.mem_cons_of_mem _ hq))
      (fun q hq => hnot q (List.mem_cons_of_mem _ hq))
    by_cases he : w.is_expired now
    · simp [List.filter_cons, he, List.countP_cons, hk, ihr]
    · simp [List.filter_cons, he, ihr]

theorem countP_expired_one (l : List (Nat × Timer)) (now : Int) (i : Nat)
    (t : Timer) (hnodup : (l.map Prod.fst).Nodup)
    (hids : ∀ p ∈ l, p.1 = p.2.id)
    (hlook : alistLookup l i = some t) (hexp : t.is_expired now = true) :
    ((l.filter fun p => p.2.is_expired now).map (·.2)).countP
      (fun tm => decide (tm.id = i)) = 1 := by
  induction l with
  | nil => simp [alistLookup] at hlook
  | cons p rest ih =>
    obtain ⟨k, w⟩ := p
    rw [List.map_cons, List.nodup_cons] at hnodup
    by_cases hk : k = i
    · subst hk
      simp [alistLookup] at hlook
      subst hlook
      have hid : w.id = k := (hids (k, w) (List.mem_cons_self _ _)).symm
      have hrest : ∀ q ∈ rest, q.1 ≠ k := by
        intro q hq hqe
        apply hnodup.1
        rw [← hqe]
        exact List.mem_map.mpr ⟨q, hq, rfl⟩
      have h0 := countP_expired_zero rest now k
        (fun q hq => hids q (List.mem_cons_of_mem _ hq)) hrest
      simp [List.filter_cons, hexp, List.countP_cons, hid, h0]
    · simp only [alistLookup, if_neg hk] at hlook
      have hkid : w.id ≠ i := by
        have := hids (k, w) (List.mem_cons_self _ _)
        simp only at this
        rw [← this]
        exact hk
      have ihr := ih hnodup.2 (fun q hq => hids q (List.mem_cons_of_mem _ hq)) hlook
      by_cases he : w.is_expired now
      · simp [List.filter_cons, he, List.countP_cons, hkid, ihr]
      · simp [List.filter_cons, he, ihr]

/-- C4: in a manager with well-formed (unique, matching) timer ids, a timer
whose elapsed time has reached its timeout is returned by `check_expired`
exactly once, is removed as a side effect, and is afterwards no longer
retrievable by `get`. -/
theorem timer_check_expired_once_and_removed
    (m : TimerManager) (now : Int) (i : Nat) (t : Timer)
    (hnodup : (m.timers.map Prod.fst).Nodup)
    (hids : ∀ p ∈ m.timers, p.1 = p.2.id)
    (hget : m.get i = some t)
    (hexp : t.is_expired now = true) :
    ((m.check_expired now).1.countP (fun tm => decide (tm.id = i)) = 1)
    ∧ (m.check_expired now).2.get i = none := by
  constructor
  · simp only [TimerManager.check_expired]
    exact countP_expired_one m.timers now i t hnodup hids hget hexp
  · have hmem : (i, t) ∈ m.timers := alistLookup_mem hget
    have hmemf : (i, t) ∈ m.timers.filter (fun p => p.2.is_expired now) :=
      List.mem_filter.mpr ⟨hmem, hexp⟩
    have hin : i ∈ (m.timers.filter fun p => p.2.is_expired now).map (·.1) :=
      List.mem_map_of_mem _ hmemf
    simp only [TimerManager.check_expired, TimerManager.get]
    apply alistLookup_eq_none
    intro p hp hpe
    have hfa := List.of_mem_filter hp
    simp only [decide_eq_true_eq] at hfa
    rw [hpe] at hfa
    exact hfa hin

/-- Witness for C4: a timer allocated with timeout 5, started at tick 0 and
polled at tick 10 is delivered exactly once and then gone. -/
theorem timer_check_expired_once_and_removed_witness :
    ((((({} : TimerManager).allocate 5 none).2.start 0 1).2.get 1
        = some ⟨1, 5, some 0, none⟩)
    ∧ (((((({} : TimerManager).allocate 5 none).2.start 0 1).2.check_expired 10).1.countP
        (fun tm => decide (tm.id = 1))) = 1)
    ∧ ((((({} : TimerManager).allocate 5 none).2.start 0 1).2.check_expired 10).2.get 1
        = none)) :=
  ⟨by decide,
   (timer_check_expired_once_and_removed
      ((({} : TimerManager).allocate 5 none).2.start 0 1).2 10 1 ⟨1, 5, some 0, none⟩
      (by decide) (by decide) (by decide) (by decide)).1,
   (timer_check_expired_once_and_removed
      ((({} : TimerManager).allocate 5 none).2.start 0 1).2 10 1 ⟨1, 5, some 0, none⟩
      (by decide) (by decide) (by decide) (by decide)).2⟩

/-! ## UE state enums and security context (`pyueransim/core/__init__.py`) -/

/-- `EMmState` (core lines 108-115). -/
inductive EMmState
  | MM_NULL | MM_DEREGISTERED | MM_REGISTERED_INITIATED | MM_REGISTERED
  | MM_DEREGISTERED_INITIATED | MM_SERVICE_REQUEST_INITIATED
deriving DecidableEq

/-- Python `Enum.name` for `EMmState`. -/
def EMmState.name : EMmState → String
  | .MM_NULL => "MM_NULL"
  | .MM_DEREGISTERED => "MM_DEREGISTERED"
  | .MM_REGISTERED_INITIATED => "MM_REGISTERED_INITIATED"
  | .MM_REGISTERED => "MM_REGISTERED"
  | .MM_DEREGISTERED_INITIATED => "MM_DEREGISTERED_INITIATED"
  | .MM_SERVICE_REQUEST_INITIATED => "MM_SERVICE_REQUEST_INITIATED"

/-- `EMmSubState` (core lines 118-132). -/
inductive EMmSubState
  | MM_DEREGISTERED_NORMAL_SERVICE | MM_DEREGISTERED_ATTACH_NEEDED
  | MM_DEREGISTERED_ATTEMPTING_ATTACH | MM_DEREGISTERED_PLMN_SEARCH
  | MM_DEREGISTERED_NO_IMSI | MM_DEREGISTERED_ONLY_IMSI
  | MM_DEREGISTERED_UPDATE_NEEDED | MM_DEREGISTERED_ATTACH_EXPIRED
  | MM_REGISTERED_NORMAL_SERVICE | MM_REGISTERED_ATTEMPTING_UPDATE
  | MM_REGISTERED_PLMN_SEARCH | MM_REGISTERED_UPDATE_NEEDED
  | MM_REGISTERED_NO_CELL_AVAILABLE
deriving DecidableEq

/-- `ECmState` (core lines 135-138). -/
inductive ECmState
  | CM_IDLE | CM_CONNECTED
deriving DecidableEq

/-- Python `Enum.name` for `ECmState`. -/
def ECmState.name : ECmState → String
  | .CM_IDLE => "CM_IDLE"
  | .CM_CONNECTED => "CM_CONNECTED"

/-- `ERrcState` (core lines 141-145). -/
inductive ERrcState
  | RRC_IDLE | RRC_CONNECTED | RRC_INACTIVE
deriving DecidableEq

/-- Python `Enum.name` for `ERrcState`. -/
def ERrcState.name : ERrcState → String
  | .RRC_IDLE => "RRC_IDLE"
  | .RRC_CONNECTED => "RRC_CONNECTED"
  | .RRC_INACTIVE => "RRC_INACTIVE"

/-- `ESmState` (core lines 148-152). -/
inductive ESmState
  | SM_NULL | SM_PENDING | SM_ACTIVE
deriving DecidableEq

/-- Python `Enum.name` for `ESmState`. -/
def ESmState.name : ESmState → String
  | .SM_NULL => "SM_NULL"
  | .SM_PENDING => "SM_PENDING"
  | .SM_ACTIVE => "SM_ACTIVE"

/-- `NasSecurityContext` (core lines 281-294); the two key `OctetString(16)`
defaults are 16 zero bytes. -/
structure NasSecurityContext where
  k_nas_int : List Nat := List.replicate 16 0
  k_nas_enc : List Nat := List.replicate 16 0
  integrity_algorithm : Nat := 0
  encryption_algorithm : Nat := 0
  count : Nat := 0
  bearer : Nat := 0
  direction : Nat := 0
deriving DecidableEq

/-! ## USIM (`pyueransim/core/nas.py` lines 400-428) -/

/-- `UsimContext` dataclass (nas.py lines 401-408). -/
structure UsimContext where
  imsi : String := ""
  key : List Nat := []
  opc : List Nat := []
  amf : List Nat := [0x80, 0x00]
  sqn : Nat := 0
deriving DecidableEq

/-- `UsimContext.generate_authentication_response` (nas.py lines 410-428).
The SHA-256 digest function comes from Python's `hashlib`, outside this
repository; it enters the model as the function argument `sha256`.
`bytes.fromhex(self.key.hex()[:32])` is the first 16 bytes of the key.  The
method assigns nothing to `self`, so the context returned alongside the
`(xres, ik, ck)` triple is the unchanged input; the `autn` argument is
never read. -/
def UsimContext.generateAuthenticationResponse (u : UsimContext)
    (sha256 : List Nat → List Nat) (rand autn : List Nat) :
    (List Nat × List Nat × List Nat) × UsimContext :=
  let key_bytes := u.key.take 16
  let opc_bytes := u.opc.take 16
  let combined := rand ++ opc_bytes ++ key_bytes.take 16
  let xres := (sha256 combined).take 16
  let ik := (sha256 (key_bytes ++ rand)).take 16
  let ck := (sha256 (opc_bytes ++ rand)).take 16
  ((xres, ik, ck), u)

/-! ## Higher-level NAS and RRC message records used by the UE -/

/-- One `tag || length || value` emission, used by every message `encode`.
Mirrors the Python truthiness test `if self.ie_x:` — `None` and the empty
byte string both emit nothing. -/
def encodeTLV (tag : Nat) (v : Option (List Nat)) : Except String (List Nat) :=
  match v with
  | some x =>
    if x ≠ [] then do
      let h ← pyBytes [tag, x.length]
      .ok (h ++ x)
    else .ok []
  | none => .ok []

/-- `RegistrationRequest` dataclass (nas.py lines 195-203). -/
structure RegistrationRequest where
  ie_5gmm_capability : Option (List Nat) := none
  ie_ue_security_capability : Option (List Nat) := none
  ie_mobile_identity : Option (List Nat) := none
  ie_registration_type : Option Nat := none
  ie_requested_nssai : Option (List Nat) := none
  ie_drx_parameter : Option (List Nat) := none
deriving DecidableEq

/-- `RegistrationRequest.encode` (nas.py lines 205-220): emits the 5GMM
capability (tag 0x0e), UE security capability (0x2e), mobile identity
(0x10) and registration type (0x0e, checked with `is not None`); the
`ie_requested_nssai` and `ie_drx_parameter` fields are never encoded. -/
def RegistrationRequest.encode (r : RegistrationRequest) : Except String (List Nat) := do
  let d1 ← encodeTLV 0x0e r.ie_5gmm_capability
  let d2 ← encodeTLV 0x2e r.ie_ue_security_capability
  let d3 ← encodeTLV 0x10 r.ie_mobile_identity
  let d4 ← match r.ie_registration_type with
    | some v => pyBytes [0x0e, 1, v]
    | none => Except.ok []
  .ok (d1 ++ d2 ++ d3 ++ d4)

/-- `PduSessionEstablishmentRequest` dataclass (nas.py lines 248-254). -/
structure PduSessionEstablishmentRequest where
  ie_pdu_session_type : Nat := 0
  ie_request_type : Nat := 1
  ie_s_nssai : Option (List Nat) := none
  ie_dnn : Option (List Nat) := none
deriving DecidableEq

/-- `PduSessionEstablishmentRequest.encode` (nas.py lines 256-264): the PDU
session type (tag 0x09) and request type (0x08) IEs are always emitted,
S-NSSAI (0x39) and DNN (0x25) only when populated. -/
def PduSessionEstablishmentRequest.encode (r : PduSessionEstablishmentRequest) :
    Except String (List Nat) := do
  let d1 ← pyBytes [0x09, 1, r.ie_pdu_session_type]
  let d2 ← pyBytes [0x08, 1, r.ie_request_type]
  let d3 ← encodeTLV 0x39 r.ie_s_nssai
  let d4 ← encodeTLV 0x25 r.ie_dnn
  .ok (d1 ++ d2 ++ d3 ++ d4)

/-- `RrcSetupRequest` dataclass (rrc.py lines 103-108). -/
structure RrcSetupRequest where
  ue_id : List Nat := []
  establishment_cause : Nat := 3
  spare : Nat := 0
deriving DecidableEq

/-- `RrcSetupRequest.encode` (rrc.py lines 110-131).  When `ue_id` is empty
the source draws 5 random bytes (`secrets.token_bytes(5)`), passed here as
`rand5`.  Every emitted element is masked below 256, so the `bytes()` range
check cannot fire. -/
def RrcSetupRequest.encode (s : RrcSetupRequest) (rand5 : List Nat) : List Nat :=
  let cause_value := s.establishment_cause &&& 0x0f
  let ue_id_bytes := if s.ue_id ≠ [] then s.ue_id else rand5
  let lastFive := ue_id_bytes.drop (ue_id_bytes.length - 5)
  let ue_id_bits := bytesToNatBE lastFive &&& 0x7FFFFFFFFF
  [0x00, cause_value &&& 0x0f,
   (ue_id_bits >>> 32) &&& 0x7f, (ue_id_bits >>> 24) &&& 0xff,
   (ue_id_bits >>> 16) &&& 0xff, (ue_id_bits >>> 8) &&& 0xff,
   ue_id_bits &&& 0xff]

/-- `RrcSetupComplete` dataclass (rrc.py lines 162-166). -/
structure RrcSetupComplete where
  selected_plmn_id : Nat := 1
  dedicated_nas_message : List Nat := []
deriving DecidableEq

/-- `RrcSetupComplete.encode` (rrc.py lines 168-183). -/
def RrcSetupComplete.encode (r : RrcSetupComplete) : Except String (List Nat) := do
  let d2 ← pyBytes [0x01, r.selected_plmn_id &&& 0x0f]
  let d3 ←
    if r.dedicated_nas_message ≠ [] then do
      let h ← pyBytes [r.dedicated_nas_message.length]
      Except.ok ([0x39] ++ h ++ r.dedicated_nas_message)
    else Except.ok []
  .ok ([0x00] ++ d2 ++ d3)

/-! ## String and byte helpers for the simulation layer -/

/-- `str.split("-")` on a character list. -/
def splitDash : List Char → List (List Char)
  | [] => [[]]
  | c :: rest =>
    match splitDash rest with
    | [] => [[]]
    | g :: gs => if c = '-' then [] :: g :: gs else (c :: g) :: gs

/-- Value of a decimal digit, if any. -/
def digitVal (c : Char) : Option Nat :=
  if '0' ≤ c ∧ c ≤ '9' then some (c.toNat - '0'.toNat) else none

/-- Python `int(s)` on a digit string: fails on the empty string or any
non-digit character. -/
def decimalVal (l : List Char) : Option Nat :=
  if l = [] then none
  else l.foldl (fun acc c =>
    match acc, digitVal c with
    | some a, some d => some (a * 10 + d)
    | _, _ => none) (some 0)

/-- Value of a hexadecimal digit, if any. -/
def hexDigitVal (c : Char) : Option Nat :=
  if '0' ≤ c ∧ c ≤ '9' then some (c.toNat - '0'.toNat)
  else if 'a' ≤ c ∧ c ≤ 'f' then some (c.toNat - 'a'.toNat + 10)
  else if 'A' ≤ c ∧ c ≤ 'F' then some (c.toNat - 'A'.toNat + 10)
  else none

/-- Python `bytes.fromhex`: pairs of hex digits; an odd length or a stray
character raises `ValueError`. -/
def hexDecode : List Char → Except String (List Nat)
  | [] => .ok []
  | a :: b :: rest =>
    match hexDigitVal a, hexDigitVal b with
    | some x, some y => do
      let r ← hexDecode rest
      .ok ((x * 16 + y) :: r)
    | _, _ => .error "ValueError: non-hexadecimal number found in fromhex() arg"
  | _ => .error "ValueError: non-hexadecimal number found in fromhex() arg"

/-- Python `str.encode('ascii')`: fails on any code point at or above 128. -/
def asciiEncode (s : String) : Except String (List Nat) :=
  if s.data.all (fun c => c.toNat < 128) then .ok (s.data.map Char.toNat)
  else .error "UnicodeEncodeError: ascii codec can not encode character"

/-- The SUPI digit-group packing of `create_registration_request`
(simulation lines 131-135): each complete group of 3 decimal digits is
turned into ONE byte with `bytes([int(group)])`, which raises `ValueError`
whenever the 3-digit value exceeds 255; a trailing partial group is
skipped. -/
def supiGroupBytes : List Char → Except String (List Nat)
  | a :: b :: c :: rest =>
    match decimalVal [a, b, c] with
    | none => .error "ValueError: invalid literal for int() with base 10"
    | some v =>
      if v < 256 then do
        let r ← supiGroupBytes rest
        .ok (v :: r)
      else .error "ValueError: bytes must be in range(0, 256)"
  | _ => .ok []

/-! ## UE simulation (`pyueransim/simulation/__init__.py` lines 31-275) -/

/-- `UeConfig` dataclass (simulation lines 31-46). -/
structure UeConfig where
  imsi : String := "imsi-208930000000001"
  key : String := "8baf473f2f8fd09487cccbd7097c6862"
  opc : String := "8e27b6af0e692e750f32667a3b14605d"
  amf : String := "8000"
  sqn : Nat := 0
  dnn : String := "internet"
  sst : Nat := 1
  sd : Nat := 0x010203
  protectionScheme : Nat := 0
  homeNetworkPublicKey : String := ""
  homeNetworkKeyId : Nat := 1
  routingIndicator : String := "0000"
deriving DecidableEq

/-- One element of `UeState.pdu_sessions`: the session dict
`{"id": ..., "state": ..., "type": ..., "apn": ...}` appended on
PDU_SESSION_ESTABLISHMENT_ACCEPT (simulation line 237). -/
structure PduSessionRecord where
  id : Nat
  state : String
  type : String
  apn : String
deriving DecidableEq

/-- `UeState` snapshot dataclass (simulation lines 49-60). -/
structure UeState where
  ue_id : String := ""
  mm_state : String := "MM_NULL"
  rrc_state : String := "RRC_IDLE"
  cm_state : String := "CM_IDLE"
  sm_state : String := "SM_NULL"
  connected_gnb : Option String := none
  pdu_sessions : List PduSessionRecord := []
  registration_attempts : Nat := 0
  last_registration_time : Option String := none
deriving DecidableEq

/-- `UeSimulation` (simulation lines 63-103).  The `on_rrc_message` /
`on_nas_message` / `log_callback` callbacks are modelled as emitted-message
lists on each operation rather than stored fields. -/
structure UeSimulation where
  config : UeConfig
  ue_id : String
  state : UeState
  mm_state : EMmState
  mm_substate : EMmSubState
  rrc_state : ERrcState
  cm_state : ECmState
  sm_state : ESmState
  security_context : Option NasSecurityContext
  usim_context : UsimContext
  timers : TimerManager
  connected_gnb_id : Option String
  ran_ue_ngap_id : Option Nat
deriving DecidableEq

/-- `UeSimulation.__init__` (simulation lines 69-103): the USIM key
material comes from `bytes.fromhex` on the hex strings of the config. -/
def UeSimulation.init (config : UeConfig) (ue_id : String) :
    Except String UeSimulation := do
  let key ← hexDecode config.key.data
  let opc ← hexDecode config.opc.data
  let amf ← hexDecode config.amf.data
  .ok { config := config, ue_id := ue_id,
        state := {ue_id := ue_id},
        mm_state := .MM_NULL,
        mm_substate := .MM_DEREGISTERED_NORMAL_SERVICE,
        rrc_state := .RRC_IDLE,
        cm_state := .CM_IDLE,
        sm_state := .SM_NULL,
        security_context := none,
        usim_context := { imsi := config.imsi, key := key, opc := opc,
                          amf := amf, sqn := config.sqn },
        timers := {},
        connected_gnb_id := none,
        ran_ue_ngap_id := none }

/-- `UeSimulation.get_state` (simulation lines 110-118): refresh the
snapshot fields from the live state variables, bump
`registration_attempts`, and return the snapshot. -/
def UeSimulation.getState (u : UeSimulation) : UeState × UeSimulation :=
  let s := {u.state with
    mm_state := u.mm_state.name,
    rrc_state := u.rrc_state.name,
    cm_state := u.cm_state.name,
    sm_state := u.sm_state.name,
    connected_gnb := u.connected_gnb_id,
    registration_attempts := u.state.registration_attempts + 1}
  (s, {u with state := s})

/-- `UeSimulation.create_registration_request` (simulation lines 120-150).
`config.imsi.split("-")[1]` raises `IndexError` without a dash; the SUPI
digit groups go through `supiGroupBytes`; `ie_requested_nssai` is assigned
in the source but `RegistrationRequest.encode` never emits it. -/
def createRegistrationRequest (config : UeConfig) : Except String (List Nat) := do
  let supi_parts ← match splitDash config.imsi.data with
    | _ :: p :: _ => Except.ok p
    | _ => Except.error "IndexError: list index out of range"
  let groups ← supiGroupBytes supi_parts
  let supi_bytes := 0x01 :: groups
  let body ← RegistrationRequest.encode
    { ie_5gmm_capability := some [0x80, 0x00, 0x00],
      ie_ue_security_capability := some [0xe0, 0x00, 0x00],
      ie_mobile_identity := some (supi_bytes.take 8),
      ie_registration_type := some 0x01,
      ie_requested_nssai := some [config.sst &&& 0xff, 0x01, 0x00,
                                  (config.sd >>> 16) &&& 0xff],
      ie_drx_parameter := none }
  let nas ← NasMessage.encode
    { security_header := 0, message_type := 0x41,
      plain_message := body, encrypted_message := [] }
  .ok nas

/-- `UeSimulation.start_registration` (simulation lines 157-176): record
the gNB, move MM to REGISTERED_INITIATED, and emit one RRC message of type
RRC_SETUP_REQUEST (0x01) whose payload is an `RrcSetupRequest` with
establishment cause MO_SIGNAL (3); `rand5` stands for the 5 random
identity bytes. -/
def UeSimulation.startRegistration (u : UeSimulation) (gnb_id : String)
    (rand5 : List Nat) : Except String (UeSimulation × List (List Nat)) := do
  let u1 := {u with connected_gnb_id := some gnb_id,
                    mm_state := .MM_REGISTERED_INITIATED,
                    mm_substate := .MM_REGISTERED_NORMAL_SERVICE}
  let payload := RrcSetupRequest.encode {establishment_cause := 3} rand5
  let out ← RrcMessage.encode
    {rrc_transaction_id := 0, message_type := 0x01, payload := payload}
  .ok (u1, [out])

/-- `UeSimulation.start` (simulation lines 152-155) delegates to
`start_registration`. -/
def UeSimulation.start (u : UeSimulation) (gnb_ip : String) (rand5 : List Nat) :
    Except String (UeSimulation × List (List Nat)) :=
  u.startRegistration gnb_ip rand5

/-- `UeSimulation.start_pdu_session` (simulation lines 242-260): SM moves
to PENDING and one NAS message of type 0xa1 is emitted, carrying PDU
session type 1, request type 1, the S-NSSAI `[sst, 3, 0, sd >> 16]` and the
ASCII-encoded DNN. -/
def UeSimulation.startPduSession (u : UeSimulation) :
    Except String (UeSimulation × List (List Nat)) := do
  let u1 := {u with sm_state := .SM_PENDING}
  let snssai ← pyBytes [u.config.sst, 0x03, 0x00, (u.config.sd >>> 16) &&& 0xff]
  let dnnB ← asciiEncode u.config.dnn
  let payload ← PduSessionEstablishmentRequest.encode
    { ie_pdu_session_type := 0x01, ie_request_type := 0x01,
      ie_s_nssai := some snssai, ie_dnn := some dnnB }
  let nas ← NasMessage.encode
    { security_header := 0, message_type := 0xa1,
      plain_message := payload, encrypted_message := [] }
  .ok (u1, [nas])

/-- `UeSimulation.handle_rrc_message` (simulation lines 178-221).  Result:
updated UE, list of payloads forwarded through `on_nas_message`, and the
optional response bytes. -/
def UeSimulation.handleRrcMessage (u : UeSimulation) (data : List Nat) :
    Except String (UeSimulation × List (List Nat) × Option (List Nat)) := do
  let msg ← RrcMessage.decode data
  if u.rrc_state = ERrcState.RRC_IDLE then
    if msg.message_type = 0x02 then
      let u1 := {u with rrc_state := .RRC_CONNECTED, cm_state := .CM_CONNECTED}
      let nas_pdu ← createRegistrationRequest u1.config
      let payload ← RrcSetupComplete.encode
        {selected_plmn_id := 1, dedicated_nas_message := nas_pdu}
      let out ← RrcMessage.encode
        {rrc_transaction_id := 0, message_type := 0x09, payload := payload}
      .ok (u1, [], some out)
    else .ok (u, [], none)
  else if u.rrc_state = ERrcState.RRC_CONNECTED then
    if msg.message_type = 0x03 then
      let out ← RrcMessage.encode
        {rrc_transaction_id := msg.rrc_transaction_id, message_type := 0x1b,
         payload := []}
      .ok (u, [], some out)
    else if msg.message_type = 0x0f then
      .ok (u, [msg.payload], none)
    else if msg.message_type = 0x06 then
      .ok ({u with rrc_state := .RRC_IDLE, cm_state := .CM_IDLE,
                   mm_state := .MM_DEREGISTERED, connected_gnb_id := none},
           [], none)
    else .ok (u, [], none)
  else .ok (u, [], none)

/-- `UeSimulation.handle_nas_message` (simulation lines 223-240).  `now` is
the `datetime.now().isoformat()` string recorded on REGISTRATION_ACCEPT. -/
def UeSimulation.handleNasMessage (u : UeSimulation) (now : String)
    (data : List Nat) :
    Except String (UeSimulation × List (List Nat) × Option (List Nat)) := do
  let nas_msg ← NasMessage.decode data
  if nas_msg.message_type = 0x42 then
    let u1 := {u with mm_state := .MM_REGISTERED,
                      mm_substate := .MM_REGISTERED_NORMAL_SERVICE,
                      state := {u.state with last_registration_time := some now}}
    let (u2, emitted) ← u1.startPduSession
    .ok (u2, emitted, none)
  else if nas_msg.message_type = 0xa2 then
    .ok ({u with sm_state := .SM_ACTIVE,
                 state := {u.state with pdu_sessions :=
                   u.state.pdu_sessions ++ [⟨1, "ACTIVE", "IPv4", u.config.dnn⟩]}},
         [], none)
  else .ok (u, [], none)

/-! ## gNB simulation (`pyueransim/simulation/__init__.py` lines 278-474) -/

/-- `GnbConfig` dataclass (simulation lines 279-290). -/
structure GnbConfig where
  mcc : String := "208"
  mnc : String := "93"
  nci : Nat := 0x000000010
  id_length : Nat := 32
  tac : Nat := 1
  ngap_ip : String := "127.0.0.1"
  gtp_ip : String := "127.0.0.1"
  amf_ip : String := "127.0.0.1"
  amf_port : Nat := 38412
deriving DecidableEq

/-- `GnbState` snapshot dataclass (simulation lines 293-300). -/
structure GnbState where
  gnb_id : String := ""
  state : String := "GNB_INVALID"
  connected_ues : Nat := 0
  amf_connected : Bool := false
  ngap_state : String := "NGAP_IDLE"
deriving DecidableEq

/-- The `metrics` counter dict (simulation lines 330-336). -/
structure GnbMetrics where
  total_ues : Nat := 0
  connected_ues : Nat := 0
  registration_requests : Nat := 0
  pdu_sessions_established : Nat := 0
  messages_exchanged : Nat := 0
deriving DecidableEq

/-- `GnbSimulation` (simulation lines 303-336).  The NGAP transport fields
(`ngap_connection`, `ue_contexts`, `on_log`) are omitted: none of the
modelled operations reads or writes them. -/
structure GnbSimulation where
  config : GnbConfig
  gnb_id : String
  state : GnbState
  ues : List (String × UeSimulation)
  metrics : GnbMetrics
  gnb_state : String
  ngap_state : String
  amf_connected : Bool
deriving DecidableEq

/-- `GnbSimulation.__init__` (simulation lines 309-336). -/
def GnbSimulation.init (config : GnbConfig) (gnb_id : String) : GnbSimulation :=
  { config := config, gnb_id := gnb_id, state := {gnb_id := gnb_id},
    ues := [], metrics := {}, gnb_state := "GNB_POWERING_ON",
    ngap_state := "NGAP_IDLE", amf_connected := false }

/-- `GnbSimulation.handle_ue_rrc` (simulation lines 410-424): count the
message, create a UE with the default `UeConfig()` when the id is unknown,
delegate to its RRC handler (the dict entry reflects the UE's mutation) and
return the response bytes, with `b""` for `None` or empty responses. -/
def GnbSimulation.handleUeRrc (g : GnbSimulation) (ue_id : String)
    (data : List Nat) :
    Except String (List Nat × GnbSimulation × List (List Nat)) := do
  let m1 := {g.metrics with messages_exchanged := g.metrics.messages_exchanged + 1}
  match alistLookup g.ues ue_id with
  | none => do
    let newUe ← UeSimulation.init {} ue_id
    let m2 := {m1 with total_ues := m1.total_ues + 1}
    let (ue', em, resp) ← newUe.handleRrcMessage data
    .ok (resp.getD [], {g with ues := g.ues ++ [(ue_id, ue')], metrics := m2}, em)
  | some ue => do
    let (ue', em, resp) ← ue.handleRrcMessage data
    .ok (resp.getD [],
         {g with ues := alistUpdate g.ues ue_id (fun _ => ue'), metrics := m1}, em)

/-- `GnbSimulation.handle_ue_nas` (simulation lines 426-439): count the
message; an UNKNOWN ue_id returns `b""` immediately — no UE is created and
nothing is delegated; a known one is delegated to. -/
def GnbSimulation.handleUeNas (g : GnbSimulation) (now : String)
    (ue_id : String) (data : List Nat) :
    Except String (List Nat × GnbSimulation × List (List Nat)) := do
  let m1 := {g.metrics with messages_exchanged := g.metrics.messages_exchanged + 1}
  match alistLookup g.ues ue_id with
  | none => .ok ([], {g with metrics := m1}, [])
  | some ue => do
    let (ue', em, resp) ← ue.handleNasMessage now data
    .ok (resp.getD [],
         {g with ues := alistUpdate g.ues ue_id (fun _ => ue'), metrics := m1}, em)

/-! ## Concrete entities shared by several checks -/

/-- The UE record that `UeSimulation.init` builds from the default
`UeConfig` (key/OPc/AMF hex strings decoded). -/
def ueBaseOf (ue_id : String) : UeSimulation :=
  { config := {}, ue_id := ue_id,
    state := {ue_id := ue_id},
    mm_state := .MM_NULL,
    mm_substate := .MM_DEREGISTERED_NORMAL_SERVICE,
    rrc_state := .RRC_IDLE,
    cm_state := .CM_IDLE,
    sm_state := .SM_NULL,
    security_context := none,
    usim_context :=
      { imsi := "imsi-208930000000001",
        key := [0x8b, 0xaf, 0x47, 0x3f, 0x2f, 0x8f, 0xd0, 0x94,
                0x87, 0xcc, 0xcb, 0xd7, 0x09, 0x7c, 0x68, 0x62],
        opc := [0x8e, 0x27, 0xb6, 0xaf, 0x0e, 0x69, 0x2e, 0x75,
                0x0f, 0x32, 0x66, 0x7a, 0x3b, 0x14, 0x60, 0x5d],
        amf := [0x80, 0x00], sqn := 0 },
    timers := {},
    connected_gnb_id := none,
    ran_ue_ngap_id := none }

theorem ueBaseOf_init (ue_id : String) :
    UeSimulation.init {} ue_id = .ok (ueBaseOf ue_id) := rfl

/-- The default-config UE named "ue1". -/
def ueBase : UeSimulation := ueBaseOf "ue1"

/-- C9: `get_state` returns a snapshot whose MM/RRC/CM/SM strings mirror
the live state variables and whose `registration_attempts` is bumped by
exactly one, while the four protocol state variables, the security context
and the PDU-session records are all left unchanged. -/
theorem ue_get_state_increments_attempts (u : UeSimulation) :
    ((u.getState.1.mm_state = u.mm_state.name)
    ∧ (u.getState.1.rrc_state = u.rrc_state.name)
    ∧ (u.getState.1.cm_state = u.cm_state.name)
    ∧ (u.getState.1.sm_state = u.sm_state.name)
    ∧ (u.getState.1.connected_gnb = u.connected_gnb_id)
    ∧ (u.getState.1.registration_attempts = u.state.registration_attempts + 1)
    ∧ (u.getState.1.pdu_sessions = u.state.pdu_sessions))
    ∧ ((u.getState.2.mm_state = u.mm_state)
    ∧ (u.getState.2.rrc_state = u.rrc_state)
    ∧ (u.getState.2.cm_state = u.cm_state)
    ∧ (u.getState.2.sm_state = u.sm_state)
    ∧ (u.getState.2.security_context = u.security_context)
    ∧ (u.getState.2.usim_context = u.usim_context)
    ∧ (u.getState.2.state.pdu_sessions = u.state.pdu_sessions)) :=
  ⟨⟨rfl, rfl, rfl, rfl, rfl, rfl, rfl⟩, rfl, rfl, rfl, rfl, rfl, rfl, rfl⟩

/-- C10 counterexample: a full authentication run on a USIM with `sqn = 0`
returns the context with `sqn` still 0 — the sequence number is NOT
advanced (the method assigns nothing to the context). -/
theorem usim_auth_sqn_not_advanced_counterexample :
    ((ueBase.usim_context.generateAuthenticationResponse (fun l => l)
        [1, 2, 3] [4, 5, 6]).2.sqn = 0)
    ∧ ((ueBase.usim_context.generateAuthenticationResponse (fun l => l)
        [1, 2, 3] [4, 5, 6]).2 = ueBase.usim_context) :=
  ⟨rfl, rfl⟩

/-- C10 amended: `generate_authentication_response` leaves every field of
the context — `sqn` included — unchanged, and the `(xres, ik, ck)` triple
is a deterministic function of the hash, the key, the OPc and `rand`
alone: two contexts agreeing on key and OPc produce the same triple for
the same `rand`, whatever their other fields and whatever `autn` is. -/
theorem usim_auth_frame_and_determinism
    (sha256 : List Nat → List Nat) (u u' : UsimContext)
    (rand autn autn' : List Nat)
    (hk : u'.key = u.key) (ho : u'.opc = u.opc) :
    ((u.generateAuthenticationResponse sha256 rand autn).2 = u)
    ∧ ((u'.generateAuthenticationResponse sha256 rand autn').1
        = (u.generateAuthenticationResponse sha256 rand autn).1) := by
  constructor
  · rfl
  · simp [UsimContext.generateAuthenticationResponse, hk, ho]

/-- Witness for C10 at two concrete contexts sharing key and OPc. -/
theorem usim_auth_frame_and_determinism_witness :
    (((UsimContext.mk "a" [1] [2] [0x80, 0] 7).generateAuthenticationResponse
        (fun l => 9 :: l) [3] [4]).2 = UsimContext.mk "a" [1] [2] [0x80, 0] 7)
    ∧ (((UsimContext.mk "b" [1] [2] [0, 0] 11).generateAuthenticationResponse
        (fun l => 9 :: l) [3] [5]).1
      = ((UsimContext.mk "a" [1] [2] [0x80, 0] 7).generateAuthenticationResponse
        (fun l => 9 :: l) [3] [4]).1) :=
  usim_auth_frame_and_determinism (fun l => 9 :: l)
    (UsimContext.mk "a" [1] [2] [0x80, 0] 7)
    (UsimContext.mk "b" [1] [2] [0, 0] 11) [3] [4] [5] rfl rfl

theorem except_error_bind {ε α β : Type} (e : ε) (f : α → Except ε β) :
    (Except.error (α := α) e >>= f) = .error e := rfl

/-- C3 counterexample: on the two-byte input `[0x00, 0xff]` (message-type
byte 0xff is declared by no NAS enum member) decode raises the plain
`ValueError` of the Python Enum constructor — the code defines no
`ProtocolDecodeError` — and the UE NAS handler does not absorb it: it
propagates instead of the message being dropped with no response; the RRC
side behaves the same on `[0x01, 0xff]`. -/
theorem protocol_decode_error_counterexample :
    (NasMessage.decode [0x00, 0xff] = .error "ValueError: not a valid ENasMessageType")
    ∧ (RrcMessage.decode [0x01, 0xff] = .error "ValueError: not a valid ERrcMessageType")
    ∧ (ueBase.handleNasMessage "t0" [0x00, 0xff]
        = .error "ValueError: not a valid ENasMessageType")
    ∧ (ueBase.handleRrcMessage [0x01, 0xff]
        = .error "ValueError: not a valid ERrcMessageType") :=
  ⟨rfl, rfl, rfl, rfl⟩

/-- C3 amended: for every input whose message-type byte is not a declared
NAS (resp. RRC) enum value, decode signals the generic `ValueError` of the
Enum lookup — there is no `ProtocolDecodeError` anywhere in the code — and
the UE handlers propagate that error to the caller uncaught rather than
dropping the message; since decoding is the first statement of each
handler, no state field has been written when the error is raised. -/
theorem protocol_decode_error_amended :
    (∀ (d0 d1 : Nat) (rest : List Nat), isNasMessageType d1 = false →
      NasMessage.decode (d0 :: d1 :: rest)
        = .error "ValueError: not a valid ENasMessageType")
    ∧ (∀ (d0 d1 : Nat) (rest : List Nat), isRrcMessageType d1 = false →
      RrcMessage.decode (d0 :: d1 :: rest)
        = .error "ValueError: not a valid ERrcMessageType")
    ∧ (∀ (u : UeSimulation) (now : String) (d0 d1 : Nat) (rest : List Nat),
      isNasMessageType d1 = false →
      u.handleNasMessage now (d0 :: d1 :: rest)
        = .error "ValueError: not a valid ENasMessageType")
    ∧ (∀ (u : UeSimulation) (d0 d1 : Nat) (rest : List Nat),
      isRrcMessageType d1 = false →
      u.handleRrcMessage (d0 :: d1 :: rest)
        = .error "ValueError: not a valid ERrcMessageType") := by
  refine ⟨?_, ?_, ?_, ?_⟩
  · intro d0 d1 rest h
    simp [NasMessage.decode, h]
  · intro d0 d1 rest h
    simp [RrcMessage.decode, h]
  · intro u now d0 d1 rest h
    simp [UeSimulation.handleNasMessage, NasMessage.decode, h, except_error_bind]
  · intro u d0 d1 rest h
    simp [UeSimulation.handleRrcMessage, RrcMessage.decode, h, except_error_bind]

/-- Witness for C3 at the concrete inputs of the counterexample shape. -/
theorem protocol_decode_error_amended_witness :
    (NasMessage.decode [0x07, 0xfe, 0x01]
        = .error "ValueError: not a valid ENasMessageType")
    ∧ (RrcMessage.decode [0x05, 0xfe]
        = .error "ValueError: not a valid ERrcMessageType")
    ∧ (ueBase.handleNasMessage "t1" [0x07, 0xfe, 0x01]
        = .error "ValueError: not a valid ENasMessageType")
    ∧ (ueBase.handleRrcMessage [0x05, 0xfe]
        = .error "ValueError: not a valid ERrcMessageType") :=
  ⟨protocol_decode_error_amended.1 7 0xfe [1] (by decide),
   protocol_decode_error_amended.2.1 5 0xfe [] (by decide),
   protocol_decode_error_amended.2.2.1 ueBase "t1" 7 0xfe [1] (by decide),
   protocol_decode_error_amended.2.2.2 ueBase 5 0xfe [] (by decide)⟩

/-- C6: with the default config, `start` does emit an RRC_SETUP_REQUEST
(type byte 0x01) whose establishment cause byte is MO_SIGNAL (3), but
feeding the resulting UE an RRC SETUP raises `ValueError` instead of
returning a SETUP_COMPLETE: the SUPI digit-group packing of
`create_registration_request` computes `bytes([930])` for the default IMSI
`imsi-208930000000001` (digit group "930"), which is out of byte range. -/
theorem registration_request_default_imsi_bug :
    (createRegistrationRequest {} = .error "ValueError: bytes must be in range(0, 256)")
    ∧ (ueBase.start "gnb1" [9, 9, 9, 9, 9]
        = .ok ({ueBase with connected_gnb_id := some "gnb1",
                            mm_state := .MM_REGISTERED_INITIATED,
                            mm_substate := .MM_REGISTERED_NORMAL_SERVICE},
               [[0x01, 0x01, 0x00, 0x03, 0x09, 0x09, 0x09, 0x09, 0x09]]))
    ∧ (({ueBase with connected_gnb_id := some "gnb1",
                     mm_state := .MM_REGISTERED_INITIATED,
                     mm_substate := .MM_REGISTERED_NORMAL_SERVICE}).handleRrcMessage
          [0x01, 0x02]
        = .error "ValueError: bytes must be in range(0, 256)") :=
  ⟨rfl, rfl, rfl⟩

/-- The gNB as constructed by `GnbSimulation.__init__` on the default
config. -/
def gnb0 : GnbSimulation := GnbSimulation.init {} "gnb1"

/-- C5 counterexample: delivering a NAS message for the unknown id "ue1"
to a fresh gNB returns `b""`, counts the message, and leaves the UE table
EMPTY — `handle_ue_nas` materializes no UE record and delegates to
nothing. -/
theorem gnb_handle_ue_nas_no_materialize_counterexample :
    (gnb0.ues = [])
    ∧ (gnb0.handleUeNas "t0" "ue1" [0x00, 0x42]
        = .ok ([], {gnb0 with metrics := {gnb0.metrics with messages_exchanged := 1}}, []))
    ∧ (({gnb0 with metrics := {gnb0.metrics with messages_exchanged := 1}}).ues = []) :=
  ⟨rfl, rfl, rfl⟩

theorem alistLookup_append {κ β : Type} [DecidableEq κ] {l : List (κ × β)} {k : κ}
    (h : alistLookup l k = none) (v : β) :
    alistLookup (l ++ [(k, v)]) k = some v := by
  induction l with
  | nil => simp [alistLookup]
  | cons p rest ih =>
    obtain ⟨a, b⟩ := p
    by_cases ha : a = k
    · subst ha
      simp [alistLookup] at h
    · simp only [List.cons_append, alistLookup, if_neg ha] at h ⊢
      exact ih h

/-- C5 amended: for an unknown ue_id, `handle_ue_rrc` materializes a UE
record (built from the default `UeConfig`), delegates the message to it and
counts it; `handle_ue_nas` only counts the message and returns `b""`
without materializing or delegating. -/
theorem gnb_lazy_materialization_amended
    (g : GnbSimulation) (ue_id : String) (data : List Nat) (now : String)
    (h : alistLookup g.ues ue_id = none) :
    (g.handleUeNas now ue_id data
        = .ok ([], {g with metrics := {g.metrics with
            messages_exchanged := g.metrics.messages_exchanged + 1}}, []))
    ∧ (∀ r, g.handleUeRrc ue_id data = .ok r →
        ∃ ue' em resp,
          (ueBaseOf ue_id).handleRrcMessage data = .ok (ue', em, resp)
          ∧ r = (resp.getD [],
              {g with ues := g.ues ++ [(ue_id, ue')],
                      metrics := {g.metrics with
                        total_ues := g.metrics.total_ues + 1,
                        messages_exchanged := g.metrics.messages_exchanged + 1}}, em)
          ∧ alistLookup r.2.1.ues ue_id = some ue') := by
  constructor
  · simp [GnbSimulation.handleUeNas, h]
  · intro r hr
    unfold GnbSimulation.handleUeRrc at hr
    rw [h, ueBaseOf_init] at hr
    simp only [except_ok_bind] at hr
    rcases hh : (ueBaseOf ue_id).handleRrcMessage data with e | trip
    · rw [hh] at hr
      simp [except_error_bind] at hr
    · obtain ⟨ue', em, resp⟩ := trip
      rw [hh] at hr
      simp only [except_ok_bind, Except.ok.injEq] at hr
      refine ⟨ue', em, resp, rfl, hr.symm, ?_⟩
      rw [← hr]
      exact alistLookup_append h ue'

/-- Witness for C5 at a fresh gNB and an empty RRC message (decoded to the
default record, a no-op for the new UE). -/
theorem gnb_lazy_materialization_amended_witness :
    (gnb0.handleUeNas "t0" "ue9" []
        = .ok ([], {gnb0 with metrics := {gnb0.metrics with
            messages_exchanged := gnb0.metrics.messages_exchanged + 1}}, []))
    ∧ (∀ r, gnb0.handleUeRrc "ue9" [] = .ok r →
        ∃ ue' em resp,
          (ueBaseOf "ue9").handleRrcMessage [] = .ok (ue', em, resp)
          ∧ r = (resp.getD [],
              {gnb0 with ues := gnb0.ues ++ [("ue9", ue')],
                         metrics := {gnb0.metrics with
                           total_ues := gnb0.metrics.total_ues + 1,
                           messages_exchanged := gnb0.metrics.messages_exchanged + 1}}, em)
          ∧ alistLookup r.2.1.ues "ue9" = some ue') :=
  gnb_lazy_materialization_amended gnb0 "ue9" [] "t0" (by decide)

theorem encodeTLV_ok {tag : Nat} {x : List Nat} (hne : x ≠ [])
    (htl : ∀ y ∈ [tag, x.length], y < 256) :
    encodeTLV tag (some x) = .ok ([tag, x.length] ++ x) := by
  simp [encodeTLV, hne, pyBytes_ok htl, except_ok_bind]

/-- C7: feeding any UE a NAS message whose type byte is
REGISTRATION_ACCEPT (0x42) moves MM to REGISTERED and autonomously emits
exactly one NAS message: type byte 0xA1 (PDU_SESSION_ESTABLISHMENT_REQUEST)
with PDU-session-type IE `09 01 01` (value 1 = IPv4), request type
`08 01 01`, the S-NSSAI IE, and the DNN IE carrying the configured DNN in
ASCII, while SM moves to PENDING; feeding it a
PDU_SESSION_ESTABLISHMENT_ACCEPT (0xa2) moves SM to ACTIVE and appends the
session record `{id 1, state ACTIVE, type IPv4, apn dnn}`. -/
theorem registration_accept_triggers_pdu_session :
    (∀ (u : UeSimulation) (now : String) (d0 : Nat) (rest dnnB : List Nat),
      asciiEncode u.config.dnn = .ok dnnB → dnnB ≠ [] → dnnB.length < 256 →
      u.config.sst < 256 →
      u.handleNasMessage now (d0 :: 0x42 :: rest)
        = .ok ({u with mm_state := .MM_REGISTERED,
                       mm_substate := .MM_REGISTERED_NORMAL_SERVICE,
                       sm_state := .SM_PENDING,
                       state := {u.state with last_registration_time := some now}},
               [[0x00, 0xa1, 0x09, 0x01, 0x01, 0x08, 0x01, 0x01,
                 0x39, 0x04, u.config.sst, 0x03, 0x00, (u.config.sd >>> 16) &&& 0xff,
                 0x25, dnnB.length] ++ dnnB],
               none))
    ∧ (∀ (u : UeSimulation) (now : String) (d0 : Nat) (rest : List Nat),
      u.handleNasMessage now (d0 :: 0xa2 :: rest)
        = .ok ({u with sm_state := .SM_ACTIVE,
                       state := {u.state with pdu_sessions :=
                         u.state.pdu_sessions ++ [⟨1, "ACTIVE", "IPv4", u.config.dnn⟩]}},
               [], none)) := by
  constructor
  · intro u now d0 rest dnnB hdnn hne hlen hsst
    have h42 : isNasMessageType 0x42 = true := by decide
    have hsn : pyBytes [u.config.sst, 0x03, 0x00, (u.config.sd >>> 16) &&& 0xff]
        = .ok [u.config.sst, 0x03, 0x00, (u.config.sd >>> 16) &&& 0xff] := by
      apply pyBytes_ok
      intro x hx
      simp only [List.mem_cons, List.not_mem_nil, or_false] at hx
      have hmask : (u.config.sd >>> 16) &&& 0xff ≤ 0xff := Nat.and_le_right
      rcases hx with rfl | rfl | rfl | rfl
      · exact hsst
      · norm_num
      · norm_num
      · omega
    have htlv1 : encodeTLV 0x39
        (some [u.config.sst, 0x03, 0x00, (u.config.sd >>> 16) &&& 0xff])
        = .ok ([0x39, 4] ++ [u.config.sst, 0x03, 0x00, (u.config.sd >>> 16) &&& 0xff]) := by
      have := @encodeTLV_ok 0x39 [u.config.sst, 0x03, 0x00, (u.config.sd >>> 16) &&& 0xff]
        (by simp) (by intro y hy; simp at hy; rcases hy with rfl | rfl <;> norm_num)
      simpa using this
    have htlv2 : encodeTLV 0x25 (some dnnB) = .ok ([0x25, dnnB.length] ++ dnnB) := by
      apply encodeTLV_ok hne
      intro y hy
      simp only [List.mem_cons, List.not_mem_nil, or_false] at hy
      rcases hy with rfl | rfl
      · norm_num
      · exact hlen
    have hp1 : pyBytes [0x09, 1, 0x01] = .ok [0x09, 1, 0x01] := by decide
    have hp2 : pyBytes [0x08, 1, 0x01] = .ok [0x08, 1, 0x01] := by decide
    have hp3 : pyBytes [0, 0xa1] = .ok [0, 0xa1] := by decide
    by_cases hd : d0 = 0 <;>
      simp [UeSimulation.handleNasMessage, NasMessage.decode, hd, h42,
            UeSimulation.startPduSession, hsn, hdnn,
            PduSessionEstablishmentRequest.encode, htlv1, htlv2,
            NasMessage.encode, hp1, hp2, hp3, except_ok_bind]
  · intro u now d0 rest
    have ha2 : isNasMessageType 0xa2 = true := by decide
    by_cases hd : d0 = 0 <;>
      simp [UeSimulation.handleNasMessage, NasMessage.decode, hd, ha2, except_ok_bind]

/-- Witness for C7 on the default-config UE ("internet" in ASCII is
`[105, 110, 116, 101, 114, 110, 101, 116]`). -/
theorem registration_accept_triggers_pdu_session_witness :
    (ueBase.handleNasMessage "t2" [0x00, 0x42]
      = .ok ({ueBase with mm_state := .MM_REGISTERED,
                          mm_substate := .MM_REGISTERED_NORMAL_SERVICE,
                          sm_state := .SM_PENDING,
                          state := {ueBase.state with last_registration_time := some "t2"}},
             [[0x00, 0xa1, 0x09, 0x01, 0x01, 0x08, 0x01, 0x01,
               0x39, 0x04, 0x01, 0x03, 0x00, 0x01,
               0x25, 0x08, 105, 110, 116, 101, 114, 110, 101, 116]],
             none))
    ∧ (ueBase.handleNasMessage "t3" [0x00, 0xa2]
      = .ok ({ueBase with sm_state := .SM_ACTIVE,
                          state := {ueBase.state with pdu_sessions :=
                            [⟨1, "ACTIVE", "IPv4", "internet"⟩]}},
             [], none)) :=
  ⟨registration_accept_triggers_pdu_session.1 ueBase "t2" 0 []
      [105, 110, 116, 101, 114, 110, 101, 116]
      (by decide) (by decide) (by decide) (by decide),
   registration_accept_triggers_pdu_session.2 ueBase "t3" 0 []⟩
